import Mathlib

/-!
Verification of the restaurant-booking-agent repository.

This file gives a shallow embedding of the conversation-orchestration code
(`agent/agent_graph.py`, `agent/tools.py`, `agent/state.py`,
`agent/prompts.py`) and proves/refutes the frozen claims about it.

External collaborators (the LLM completion endpoint, the booking REST API
and the `dateutil` fuzzy parser) are modelled as explicit outcome
parameters of type `Except`/`Option`; Python `None` becomes `Option.none`,
Python exceptions become the `.error` constructor of `Except`, and Python
string truthiness is modelled explicitly.
-/

namespace BookingAgent

/-! ## Basic Python-style string helpers -/

/-- Python `str` values that may be `None`: `Option String`.  Truthiness of
such a value (`if s:`): present and non-empty. -/
def optTruthy : Option String → Bool
  | some v => v ≠ ""
  | none => false

/-- Python `a or b` on optional strings: returns `a` when truthy, else `b`. -/
def pyOr (a b : Option String) : Option String :=
  if optTruthy a then a else b

/-- Python `str(x)` rendering of an optional string (`None` renders as
`"None"`), as used by f-string interpolation of `dict.get` results. -/
def pyStrOptS : Option String → String
  | some s => s
  | none => "None"

/-- Python `str(x)` rendering of an optional integer. -/
def pyStrOptI : Option Int → String
  | some n => toString n
  | none => "None"

/-- Whether the character-list `pat` occurs at the start of `l`. -/
def charsStartWith : List Char → List Char → Bool
  | [], _ => true
  | _ :: _, [] => false
  | a :: as, b :: bs => a = b && charsStartWith as bs

/-- Whether the character-list `pat` occurs contiguously anywhere in `l`
(Python substring operator `in`). -/
def charsHaveSub (pat : List Char) : List Char → Bool
  | [] => charsStartWith pat []
  | l@(_ :: rest) => charsStartWith pat l || charsHaveSub pat rest

/-- Python `pat in s` substring test. -/
def strContains (s pat : String) : Bool :=
  charsHaveSub pat.data s.data

/-- Left-pad a string with the digit zero up to width `w` (Python
zero-fill formatting; never truncates). -/
def padLeft0 (w : Nat) (s : String) : String :=
  if w ≤ s.length then s else String.mk (List.replicate (w - s.length) '0') ++ s

/-- Python two-digit zero-padded rendering of a number. -/
def pad2 (n : Nat) : String := padLeft0 2 (toString n)

/-- ASCII lower-casing of one character (the inputs handled by the code
are ASCII). -/
def lowerChar (c : Char) : Char :=
  if 65 ≤ c.toNat && c.toNat ≤ 90 then Char.ofNat (c.toNat + 32) else c

/-- Python `str.lower()`. -/
def strLower (s : String) : String :=
  String.mk (s.data.map lowerChar)

/-- Characters stripped by Python `str.strip()` with no argument. -/
def pyIsSpace (c : Char) : Bool :=
  c = ' ' || c = '\t' || c = '\n' || c = '\x0d' || c = '\x0b' || c = '\x0c'

/-- Drop leading and trailing whitespace from a character list. -/
def trimWs (l : List Char) : List Char :=
  ((l.dropWhile pyIsSpace).reverse.dropWhile pyIsSpace).reverse

/-- Python `str.strip()`. -/
def pyStrip (s : String) : String :=
  String.mk (trimWs s.data)

/-- Split a character list at every occurrence of `sep` (Python
`str.split(sep)` for a one-character separator). -/
def splitChar (sep : Char) : List Char → List (List Char)
  | [] => [[]]
  | c :: rest =>
    match splitChar sep rest with
    | [] => [[]]
    | g :: gs => if c = sep then [] :: g :: gs else (c :: g) :: gs

/-- Python `s.split(sep)` for a one-character separator. -/
def strSplitChar (sep : Char) (s : String) : List String :=
  (splitChar sep s.data).map String.mk

/-- Python `sep.join(parts)`. -/
def strJoinWith (sep : String) : List String → String
  | [] => ""
  | p :: ps => ps.foldl (fun acc q => acc ++ sep ++ q) p

/-- Python `s.startswith(pat)`. -/
def strStartsWith (s pat : String) : Bool :=
  charsStartWith pat.data s.data

/-- Python `s[n:]`. -/
def strDrop (n : Nat) (s : String) : String :=
  String.mk (s.data.drop n)

/-- Python `s[:n]`. -/
def strTake (n : Nat) (s : String) : String :=
  String.mk (s.data.take n)

/-- Python `str.split(sep, 1)` for a one-character separator: split on the
first occurrence only. -/
def splitOnce (s : String) (sep : Char) : List String :=
  match splitChar sep s.data with
  | [] => []
  | [g] => [String.mk g]
  | g :: gs => [String.mk g, strJoinWith (String.mk [sep]) (gs.map String.mk)]

/-- Remove every occurrence of the non-empty pattern from a character list
(Python string replacement by the empty string), with a fuel argument
bounding the scan. -/
def removeAllAux (pat : List Char) : Nat → List Char → List Char
  | 0, l => l
  | _, [] => []
  | fuel + 1, c :: rest =>
    if charsStartWith pat (c :: rest) && pat ≠ [] then
      removeAllAux pat fuel ((c :: rest).drop pat.length)
    else c :: removeAllAux pat fuel rest

/-- Python replacement of every occurrence of `pat` by the empty string. -/
def strRemoveAll (pat s : String) : String :=
  String.mk (removeAllAux pat.data s.data.length s.data)

/-- Python `str.split()` (split on whitespace runs, no empty parts), with
a fuel argument bounding the scan. -/
def splitWsAux : Nat → List Char → List (List Char)
  | 0, _ => []
  | _, [] => []
  | fuel + 1, c :: rest =>
    if pyIsSpace c then splitWsAux fuel rest
    else
      (c :: rest.takeWhile (fun d => !pyIsSpace d)) ::
        splitWsAux fuel (rest.dropWhile (fun d => !pyIsSpace d))

/-- Python `s.split()`. -/
def pySplitWs (s : String) : List String :=
  (splitWsAux s.data.length s.data).map String.mk

/-- Numeric value of a decimal digit run. -/
def digitsVal? (l : List Char) : Option Nat :=
  if l ≠ [] && l.all Char.isDigit then
    some (l.foldl (fun a c => a * 10 + (c.toNat - '0'.toNat)) 0)
  else none

/-- The integer literals accepted by Python `int(str)`: optional
whitespace, an optional sign, then decimal digits. -/
def pyIntParse (s : String) : Option Int :=
  match trimWs s.data with
  | '-' :: rest => (digitsVal? rest).map (fun n => -(n : Int))
  | '+' :: rest => (digitsVal? rest).map (fun n => (n : Int))
  | l => (digitsVal? l).map (fun n => (n : Int))

/-- Python `int(x)` on an optional string: `TypeError` on `None`,
`ValueError` on a non-integer literal, both modelled as `.error` carrying
the CPython message text. -/
def pyToInt : Option String → Except String Int
  | none => .error "int() argument must be a string, a bytes-like object or a real number, not \x27NoneType\x27"
  | some s =>
    match pyIntParse s with
    | some n => .ok n
    | none => .error ("invalid literal for int() with base 10: \x27" ++ s ++ "\x27")

/-! ## Dates and times (embedding of the `datetime` arithmetic used) -/

/-- A Gregorian calendar date as carried by Python `datetime.date`. -/
structure Date where
  year : Nat
  month : Nat
  day : Nat
deriving DecidableEq, Repr

/-- Gregorian leap-year rule. -/
def isLeap (y : Nat) : Bool :=
  y % 4 = 0 && (y % 100 ≠ 0 || y % 400 = 0)

/-- Number of days of month `m` (1-12) in year `y`. -/
def daysInMonth (y m : Nat) : Nat :=
  if m = 2 then (if isLeap y then 29 else 28)
  else if m = 4 ∨ m = 6 ∨ m = 9 ∨ m = 11 then 30
  else 31

/-- The day after `d` (Python `date + timedelta(days=1)`). -/
def nextDay (d : Date) : Date :=
  if d.day < daysInMonth d.year d.month then ⟨d.year, d.month, d.day + 1⟩
  else if d.month < 12 then ⟨d.year, d.month + 1, 1⟩
  else ⟨d.year + 1, 1, 1⟩

/-- Python `date + timedelta(days=n)` for `n ≥ 0`. -/
def addDays (d : Date) : Nat → Date
  | 0 => d
  | n + 1 => nextDay (addDays d n)

/-- Days before the first day of month `m` in year `y`. -/
def daysBeforeMonth (y m : Nat) : Nat :=
  ((List.range (m - 1)).map (fun i => daysInMonth y (i + 1))).foldl (· + ·) 0

/-- Proleptic Gregorian ordinal (Python `date.toordinal`, 0001-01-01 ↦ 1). -/
def toOrdinal (d : Date) : Nat :=
  365 * (d.year - 1) + (d.year - 1) / 4 - (d.year - 1) / 100 + (d.year - 1) / 400
    + daysBeforeMonth d.year d.month + d.day

/-- Python `date.weekday()`: Monday = 0 … Sunday = 6. -/
def weekday (d : Date) : Nat :=
  (toOrdinal d + 6) % 7

/-- Python date rendering in the %Y-%m-%d format (year zero-padded to
four digits, month and day to two). -/
def dateToStr (d : Date) : String :=
  padLeft0 4 (toString d.year) ++ "-" ++ pad2 d.month ++ "-" ++ pad2 d.day

/-- Python `date.replace(year=y)`: raises `ValueError` when the resulting
calendar date does not exist (Feb 29 in a non-leap year). -/
def replaceYear (d : Date) (y : Nat) : Except Unit Date :=
  if d.day ≤ daysInMonth y d.month then .ok ⟨y, d.month, d.day⟩ else .error ()

/-- A time of day as carried by Python `datetime.time`. -/
structure TimeOfDay where
  hour : Nat
  minute : Nat
  second : Nat
deriving DecidableEq, Repr

/-- Python time rendering in the %H:%M:%S format. -/
def timeToStr (t : TimeOfDay) : String :=
  pad2 t.hour ++ ":" ++ pad2 t.minute ++ ":" ++ pad2 t.second

/-- Python weekday-offset adjustment used by `_parse_date`: the computed
`days_ahead` has 7 added when non-positive, and the result is cast to the
non-negative day count handed to `timedelta`. -/
def weekdayOffset (x : Int) : Nat :=
  (if x ≤ 0 then x + 7 else x).toNat

/-! ## `BookingTools._parse_date` (tools.py lines 254-308)

The `dateutil` fuzzy parser is external: its outcome on the given input is
the parameter `fuzzy` (`.error ()` models `parser.parse` raising). -/

/-- The relative-date branch chain of `_parse_date` (the cascaded substring
checks on the lower-cased input).  Returns the chosen date, or `none` when
control falls through to the general-purpose parser. -/
def parseDateRel (today : Date) (low : String) : Option Date :=
  if strContains low "today" then some today
  else if strContains low "tomorrow" then some (addDays today 1)
  else if strContains low "weekend" || strContains low "saturday" then
    some (addDays today (weekdayOffset (5 - (weekday today : Int))))
  else if strContains low "sunday" then
    some (addDays today (weekdayOffset (6 - (weekday today : Int))))
  else if strContains low "next" then
    if strContains low "friday" then
      some (addDays today (weekdayOffset (4 - (weekday today : Int))))
    else if strContains low "week" then some (addDays today 7)
    else none
  else none

/-- Embedding of `BookingTools._parse_date`.  Here `date_str = none` models a `None` argument
(whose `.lower()` raises inside the `try`, yielding the default).  Every
exception site is caught by the enclosing handler, which returns tomorrow. -/
def parseDate (fuzzy : Except Unit Date) (today : Date) (date_str : Option String) : String :=
  match date_str with
  | none => dateToStr (addDays today 1)
  | some ds =>
    match parseDateRel today (strLower ds) with
    | some d => dateToStr d
    | none =>
      match fuzzy with
      | .error _ => dateToStr (addDays today 1)
      | .ok pd =>
        if pd.year < today.year ∨ (pd.year = today.year ∧
            (pd.month < today.month ∨ (pd.month = today.month ∧ pd.day < today.day))) then
          if pd.month < today.month ∨ (pd.month = today.month ∧ pd.day < today.day) then
            match replaceYear pd (today.year + 1) with
            | .ok pd2 => dateToStr pd2
            | .error _ => dateToStr (addDays today 1)
          else dateToStr pd
        else dateToStr pd

/-! ## `BookingTools._parse_time` (tools.py lines 310-345) -/

/-- First maximal run of decimal digits in a character list (the Python
regex search for one or more digits). -/
def firstDigitRun : List Char → Option (List Char)
  | [] => none
  | c :: rest =>
    if c.isDigit then some (c :: rest.takeWhile Char.isDigit)
    else firstDigitRun rest

/-- Numeric value of a digit run (Python `int` on a digit string). -/
def digitsToNat (l : List Char) : Nat :=
  l.foldl (fun a c => a * 10 + (c.toNat - '0'.toNat)) 0

/-- Embedding of `BookingTools._parse_time`.  The `dateutil` fuzzy parse outcome for the
am/pm branch is the parameter `fuzzy`.  The result is `Option String`
because the colon branch with a part count other than 2 or 3 falls off the
end of the function body: Python then returns `None`, modelled as `none`. -/
def parseTime (fuzzy : Except Unit TimeOfDay) (time_str : Option String) : Option String :=
  match time_str with
  | none => some "19:00:00"
  | some ts =>
    let t := pyStrip (strLower ts)
    if strContains t "pm" || strContains t "am" then
      match fuzzy with
      | .ok tm => some (timeToStr tm)
      | .error _ => some "19:00:00"
    else if strContains t ":" then
      let parts := strSplitChar ':' t
      if parts.length = 2 then
        some (padLeft0 2 (parts.getD 0 "") ++ ":" ++ padLeft0 2 (parts.getD 1 "") ++ ":00")
      else if parts.length = 3 then
        some (padLeft0 2 (parts.getD 0 "") ++ ":" ++ padLeft0 2 (parts.getD 1 "") ++ ":"
          ++ padLeft0 2 (parts.getD 2 ""))
      else none
    else
      match firstDigitRun t.data with
      | none => some "19:00:00"
      | some run =>
        let hour := digitsToNat run
        let hour := if hour < 12 && strContains t "dinner" then hour + 12 else hour
        some (pad2 hour ++ ":00:00")

/-! ## API result shapes and the operation envelope

The booking REST API is an external collaborator; the decoded body of a
successful call is modelled by the structures below (fields `Option`-valued
exactly where the Python code reads them with `dict.get`), and a raised
transport failure by `Except.error` carrying `str(e)`. -/

/-- One availability slot from the availability-search response body. -/
structure Slot where
  time : Option String := none
  available : Option Bool := none
deriving DecidableEq, Repr

/-- Customer sub-record of a booking response body. -/
structure ApiCustomer where
  first_name : Option String := none
  surname : Option String := none
deriving DecidableEq, Repr

/-- Decoded booking response body (create / read). -/
structure ApiBooking where
  booking_reference : Option String := none
  visit_date : Option String := none
  visit_time : Option String := none
  party_size : Option Int := none
  special_requests : Option String := none
  customer : Option ApiCustomer := none
deriving DecidableEq, Repr

instance : Inhabited ApiBooking := ⟨{}⟩

/-- Decoded availability-search response body. -/
structure AvailApi where
  available_slots : Option (List Slot) := none
deriving DecidableEq, Repr

/-- Decoded update response body. -/
structure UpdateApi where
  updates : Option (List (String × String)) := none
deriving DecidableEq, Repr

/-- The uniform operation envelope every `BookingTools` method returns
(`{success, message, error?, ...operation-specific fields}`); a field is
`none` when the Python dict omits the key. -/
structure Envelope where
  success : Bool
  message : String
  error : Option String := none
  date : Option String := none
  party_size : Option Int := none
  formatted_slots : Option String := none
  raw_slots : Option (List Slot) := none
  booking_reference : Option String := none
  booking_details : Option ApiBooking := none
  formatted_details : Option String := none
  updates : Option (List (String × String)) := none
deriving DecidableEq, Repr

/-! ## prompts.py formatting helpers -/

/-- Embedding of `prompts.format_availability_slots`. -/
def format_availability_slots (slots : List Slot) : String :=
  if slots = [] then "No available slots"
  else
    let formatted := (slots.filter (fun s => s.available.getD false)).map
      (fun s => "• " ++ strTake 5 (s.time.getD "") ++ " - Available")
    if formatted = [] then "No available slots"
    else strJoinWith "\n" formatted

/-- Embedding of `prompts.format_booking_details`. -/
def format_booking_details (b : ApiBooking) : String :=
  let details := [
    "📝 Reference: " ++ b.booking_reference.getD "N/A",
    "📅 Date: " ++ b.visit_date.getD "N/A",
    "⏰ Time: " ++ b.visit_time.getD "N/A",
    "👥 Party size: " ++ (match b.party_size with | some n => toString n | none => "N/A")]
  let details := details ++
    (if optTruthy b.special_requests then
      ["📋 Special requests: " ++ b.special_requests.getD ""] else [])
  let details := details ++
    (match b.customer with
     | some c =>
       if optTruthy c.first_name || optTruthy c.surname then
         ["👤 Name: " ++ pyStrip (c.first_name.getD "" ++ " " ++ c.surname.getD "")]
       else []
     | none => [])
  strJoinWith "\n" details

/-- Template booking_created of `CONFIRMATION_TEMPLATES` applied to its fields. -/
def booking_created_msg (date time party_size people reference special_requests : String) : String :=
  "Great! I\x27ve successfully made your booking:\n\n📍 Restaurant: TheHungryUnicorn\n📅 Date: "
    ++ date ++ "\n⏰ Time: " ++ time ++ "\n👥 Party size: " ++ party_size ++ " " ++ people
    ++ "\n📝 Booking reference: " ++ reference ++ "\n" ++ special_requests
    ++ "\n\nPlease save your booking reference. You\x27ll need it to check or modify your reservation."

/-- Template booking_updated of `CONFIRMATION_TEMPLATES` applied to its fields. -/
def booking_updated_msg (reference updates : String) : String :=
  "Your booking has been successfully updated:\n\n📝 Booking reference: " ++ reference
    ++ "\nUpdated details:\n" ++ updates ++ "\n\nIs there anything else you\x27d like to change?"

/-- Template booking_cancelled of `CONFIRMATION_TEMPLATES` applied to its field. -/
def booking_cancelled_msg (reference : String) : String :=
  "Your booking " ++ reference ++ " has been successfully cancelled.\n\nWe\x27re sorry to see you go! Feel free to make a new booking anytime."

/-- Template availability_results of `CONFIRMATION_TEMPLATES` applied to its fields. -/
def availability_results_msg (date party_size available_slots : String) : String :=
  "Here are the available times for " ++ date ++ " (party of " ++ party_size ++ "):\n\n"
    ++ available_slots ++ "\n\nWould you like to book any of these times?"

/-! ## `BookingTools` — the Booking Operation Facade (tools.py)

Each method takes the outcome of its `api_client` call as an explicit
parameter (`.error e` models the call raising with `str(e) = e`; the
`get` operation additionally returns `none` for a 404). -/

/-- Embedding of `BookingTools.check_availability`. -/
def tool_check_availability (fzD : Except Unit Date) (today : Date)
    (apiOut : Except String AvailApi)
    (date_str : Option String) (party_size : Int) : Envelope :=
  let formatted_date := parseDate fzD today date_str
  match apiOut with
  | .ok res =>
    let slots := res.available_slots.getD []
    { success := true
      date := some formatted_date
      party_size := some party_size
      formatted_slots := some (format_availability_slots slots)
      raw_slots := some slots
      message := "Found " ++ toString (slots.filter (fun s => s.available.getD false)).length
        ++ " available slots" }
  | .error e =>
    { success := false, error := some e, message := "Failed to check availability" }

/-- Embedding of `BookingTools.create_booking`. -/
def tool_create_booking (fzD : Except Unit Date) (fzT : Except Unit TimeOfDay) (today : Date)
    (apiOut : Except String ApiBooking)
    (date_str time_str : Option String) (party_size : Int)
    (customer_info : Option (List (String × String)))
    (special_requests : Option String) : Envelope :=
  let _formatted_date := parseDate fzD today date_str
  let _formatted_time := parseTime fzT time_str
  let _ := (customer_info, special_requests, party_size)
  match apiOut with
  | .ok result =>
    { success := true
      booking_reference := result.booking_reference
      booking_details := some result
      message := "Booking confirmed with reference: " ++ pyStrOptS result.booking_reference }
  | .error e =>
    { success := false, error := some e, message := "Failed to create booking" }

/-- Embedding of `BookingTools.get_booking` (here `apiOut = .ok none` models the 404 path of
the gateway, which returns `None` rather than raising). -/
def tool_get_booking (apiOut : Except String (Option ApiBooking))
    (booking_reference : String) : Envelope :=
  match apiOut with
  | .ok (some result) =>
    { success := true
      booking_details := some result
      formatted_details := some (format_booking_details result)
      message := "Booking found" }
  | .ok none =>
    { success := false, message := "No booking found with reference: " ++ booking_reference }
  | .error e =>
    { success := false, error := some e, message := "Failed to retrieve booking" }

/-- Embedding of `BookingTools.update_booking` (the node passes `entities.get(...)`
values straight through, so `party_size` flows as an optional string). -/
def tool_update_booking (fzD : Except Unit Date) (fzT : Except Unit TimeOfDay) (today : Date)
    (apiOut : Except String UpdateApi)
    (booking_reference : String) (date_str time_str party_size special_requests : Option String) :
    Envelope :=
  let _formatted_date := if optTruthy date_str then some (parseDate fzD today date_str) else none
  let _formatted_time := if optTruthy time_str then parseTime fzT time_str else none
  let _ := (party_size, special_requests)
  match apiOut with
  | .ok result =>
    { success := true
      booking_reference := some booking_reference
      updates := some (result.updates.getD [])
      message := "Booking " ++ booking_reference ++ " has been updated" }
  | .error e =>
    { success := false, error := some e, message := "Failed to update booking" }

/-- The fixed cancellation-reason lookup of `BookingTools.cancel_booking`,
defaulting to 1. -/
def reasonId (reason : String) : Nat :=
  let r := strLower reason
  if r = "customer request" then 1
  else if r = "restaurant closure" then 2
  else if r = "weather" then 3
  else if r = "emergency" then 4
  else if r = "no show" then 5
  else 1

/-- Embedding of `BookingTools.cancel_booking`. -/
def tool_cancel_booking (apiOut : Except String Unit)
    (booking_reference : String) (reason : String) : Envelope :=
  let _reason_id := reasonId reason
  match apiOut with
  | .ok _ =>
    { success := true
      booking_reference := some booking_reference
      message := "Booking " ++ booking_reference ++ " has been cancelled" }
  | .error e =>
    { success := false, error := some e, message := "Failed to cancel booking" }

/-! ## Conversation state (state.py) -/

/-- Message roles of langchain `HumanMessage` / `AIMessage` / `SystemMessage`. -/
inductive Role
  | user
  | assistant
  | system
deriving DecidableEq, Repr

/-- One message of the conversation history. -/
structure Msg where
  role : Role
  content : String
deriving DecidableEq, Repr

/-- Insertion-ordered Python `dict[str, str]` as an association list. -/
abbrev EntMap := List (String × String)

/-- Python `d.get(k)`. -/
def dictGet (d : EntMap) (k : String) : Option String :=
  match d.find? (fun p => p.1 = k) with
  | some p => some p.2
  | none => none

/-- Python `d[k] = v` (overwrite in place, else append; preserves order). -/
def dictInsert (d : EntMap) (k v : String) : EntMap :=
  match d.find? (fun p => p.1 = k) with
  | some _ => d.map (fun p => if p.1 = k then (k, v) else p)
  | none => d ++ [(k, v)]

/-- Python `d.update(e)`. -/
def dictUpdate (d e : EntMap) : EntMap :=
  e.foldl (fun acc p => dictInsert acc p.1 p.2) d

/-- Embedding of `state.ConversationState` (the TypedDict; `session_id`, `user_name`
carried for completeness). -/
structure AgentState where
  messages : List Msg
  current_booking_reference : Option String
  intent : Option String
  entities : EntMap
  last_api_response : Option Envelope
  session_id : String
  user_name : Option String
  pending_booking : EntMap
  error : Option String
deriving DecidableEq, Repr

/-- Embedding of `state.initialize_state`. -/
def initialize_state (session_id : String) : AgentState :=
  { messages := []
    current_booking_reference := none
    intent := none
    entities := []
    last_api_response := none
    session_id := session_id
    user_name := none
    pending_booking := []
    error := none }

/-! ## External outcomes of one conversation turn

Each field is the result the corresponding external call would produce if
the turn reaches it: the raw LLM completion for intent extraction
(`.error` = the call raising), the decoded booking-API bodies per
operation, the LLM completions for open conversation and for the final
response, the `dateutil` fuzzy-parse outcomes, and the current date. -/

structure TurnEnv where
  today : Date
  fuzzyDate : Except Unit Date
  fuzzyTime : Except Unit TimeOfDay
  extraction : Except String String
  availApi : Except String AvailApi
  createApi : Except String ApiBooking
  getApi : Except String (Option ApiBooking)
  updateApi : Except String UpdateApi
  cancelApi : Except String Unit
  convLlm : Except String String
  respondLlm : Except String String

/-! ## `RestaurantBookingAgent` (agent_graph.py) -/

/-- Embedding of `RestaurantBookingAgent._parse_extraction`: fold the line-oriented LLM
reply into `(intent, entities)`. -/
def parse_extraction_go (intent : Option String) (entities : EntMap) :
    List String → Option String × EntMap
  | [] => (intent, entities)
  | line :: rest =>
    let line := pyStrip line
    if strStartsWith line "Intent:" then
      parse_extraction_go (some (strLower (pyStrip (strRemoveAll "Intent:" line)))) entities rest
    else if strStartsWith line "- " then
      match splitOnce (strDrop 2 line) ':' with
      | [k, v] => parse_extraction_go intent (dictInsert entities (pyStrip k) (pyStrip v)) rest
      | _ => parse_extraction_go intent entities rest
    else parse_extraction_go intent entities rest

/-- Embedding of `RestaurantBookingAgent._parse_extraction`. -/
def parse_extraction (text : String) : Option String × EntMap :=
  parse_extraction_go none [] (strSplitChar '\n' (pyStrip text))

/-- Whether the last message of the history is assistant-authored
(`isinstance(state["messages"][-1], AIMessage)`). -/
def lastIsAssistant (ms : List Msg) : Bool :=
  match ms.getLast? with
  | some m => m.role = Role.assistant
  | none => false

/-- Embedding of `RestaurantBookingAgent.process_input`: run extraction on the last user
message; an exception of the LLM call is recorded on `error`. -/
def process_input (ext : Except String String) (s : AgentState) : AgentState :=
  match s.messages.getLast? with
  | none => s
  | some last =>
    if last.role = Role.user then
      match ext with
      | .ok reply =>
        let r := parse_extraction reply
        { s with intent := r.1, entities := r.2 }
      | .error e => { s with error := some e }
    else s

/-- Truthiness of an extracted entity value. -/
def entTruthy (s : AgentState) (k : String) : Bool :=
  optTruthy (dictGet s.entities k)

/-- Python expression used by the reference-taking nodes: the extracted entity `booking_reference` or, as fallback, the stored reference. -/
def chosen_booking_ref (ents : EntMap) (cur : Option String) : Option String :=
  pyOr (dictGet ents "booking_reference") cur

/-- Embedding of `RestaurantBookingAgent.route_intent`: the per-turn routing decision.
Returns the next node name together with the (possibly mutated) state —
the `create_booking` partial-information branch updates `pending_booking`
in place. -/
def route_intent (s : AgentState) : String × AgentState :=
  match s.intent with
  | none => ("respond", s)
  | some i =>
    if i = "" then ("respond", s)
    else if i = "check_availability" then
      if entTruthy s "date" && entTruthy s "party_size" then ("check_availability", s)
      else ("conversation", s)
    else if i = "create_booking" then
      if entTruthy s "date" && entTruthy s "time" && entTruthy s "party_size" then
        ("create_booking", s)
      else if entTruthy s "date" || entTruthy s "party_size" then
        ("conversation", { s with pending_booking := dictUpdate s.pending_booking s.entities })
      else ("conversation", s)
    else if i = "get_booking" then
      if optTruthy (chosen_booking_ref s.entities s.current_booking_reference) then
        ("get_booking", s)
      else ("conversation", s)
    else if i = "update_booking" then
      if optTruthy (chosen_booking_ref s.entities s.current_booking_reference) then
        ("update_booking", s)
      else ("conversation", s)
    else if i = "cancel_booking" then
      if optTruthy (chosen_booking_ref s.entities s.current_booking_reference) then
        ("cancel_booking", s)
      else ("conversation", s)
    else ("conversation", s)

/-- Embedding of `RestaurantBookingAgent.check_availability_node`. -/
def check_availability_node (env : TurnEnv) (s : AgentState) : AgentState :=
  match pyToInt (dictGet s.entities "party_size") with
  | .error e => { s with error := some e }
  | .ok ps =>
    let result := tool_check_availability env.fuzzyDate env.today env.availApi
      (dictGet s.entities "date") ps
    let s := { s with last_api_response := some result }
    if result.success then
      let message := availability_results_msg (pyStrOptS result.date)
        (pyStrOptI result.party_size) (pyStrOptS result.formatted_slots)
      { s with messages := s.messages ++ [⟨Role.assistant, message⟩] }
    else
      { s with error := some (result.error.getD "Failed to check availability") }

/-- The `customer_info` dict built by `create_booking_node` from the
extracted entities. -/
def buildCustomerInfo (ents : EntMap) : List (String × String) :=
  (if optTruthy (dictGet ents "customer_name") then
    let parts := pySplitWs ((dictGet ents "customer_name").getD "")
    [("FirstName", match parts with | p :: _ => p | [] => ""),
     ("Surname", if parts.length > 1 then strJoinWith " " parts.tail else "")]
   else [])
  ++ (if optTruthy (dictGet ents "customer_email") then
        [("Email", (dictGet ents "customer_email").getD "")] else [])
  ++ (if optTruthy (dictGet ents "customer_phone") then
        [("Mobile", (dictGet ents "customer_phone").getD "")] else [])

/-- Embedding of `RestaurantBookingAgent.create_booking_node`. -/
def create_booking_node (env : TurnEnv) (s : AgentState) : AgentState :=
  match pyToInt (dictGet s.entities "party_size") with
  | .error e => { s with error := some e }
  | .ok ps =>
    let customer_info := buildCustomerInfo s.entities
    let result := tool_create_booking env.fuzzyDate env.fuzzyTime env.today env.createApi
      (dictGet s.entities "date") (dictGet s.entities "time") ps
      (if customer_info = [] then none else some customer_info)
      (dictGet s.entities "special_requests")
    let s := { s with last_api_response := some result }
    if result.success then
      let s := { s with current_booking_reference := result.booking_reference }
      let booking := result.booking_details.getD default
      let people := if booking.party_size = some 1 then "person" else "people"
      let special_req :=
        if optTruthy booking.special_requests then
          "\n💬 Special requests: " ++ booking.special_requests.getD ""
        else ""
      let message := booking_created_msg (pyStrOptS booking.visit_date)
        (pyStrOptS booking.visit_time) (pyStrOptI booking.party_size) people
        (pyStrOptS result.booking_reference) special_req
      { s with messages := s.messages ++ [⟨Role.assistant, message⟩] }
    else
      { s with error := some (result.error.getD "Failed to create booking") }

/-- Embedding of `RestaurantBookingAgent.get_booking_node`. -/
def get_booking_node (env : TurnEnv) (s : AgentState) : AgentState :=
  match chosen_booking_ref s.entities s.current_booking_reference with
  | none => { s with error := some "No booking reference provided" }
  | some r =>
    if r = "" then { s with error := some "No booking reference provided" }
    else
      let result := tool_get_booking env.getApi r
      let s := { s with last_api_response := some result }
      if result.success then
        let message := "Here are your booking details:\n\n" ++ (result.formatted_details.getD "")
        { s with messages := s.messages ++ [⟨Role.assistant, message⟩] }
      else
        { s with error := some result.message }

/-- Embedding of `RestaurantBookingAgent.update_booking_node`. -/
def update_booking_node (env : TurnEnv) (s : AgentState) : AgentState :=
  match chosen_booking_ref s.entities s.current_booking_reference with
  | none => { s with error := some "No booking reference provided" }
  | some r =>
    if r = "" then { s with error := some "No booking reference provided" }
    else
      let result := tool_update_booking env.fuzzyDate env.fuzzyTime env.today env.updateApi r
        (dictGet s.entities "date") (dictGet s.entities "time")
        (dictGet s.entities "party_size") (dictGet s.entities "special_requests")
      let s := { s with last_api_response := some result }
      if result.success then
        let updates_text := strJoinWith "\n"
          ((result.updates.getD []).map (fun p => "• " ++ p.1 ++ ": " ++ p.2))
        let message := booking_updated_msg r updates_text
        { s with messages := s.messages ++ [⟨Role.assistant, message⟩] }
      else
        { s with error := some (result.error.getD "Failed to update booking") }

/-- Embedding of `RestaurantBookingAgent.cancel_booking_node`. -/
def cancel_booking_node (env : TurnEnv) (s : AgentState) : AgentState :=
  match chosen_booking_ref s.entities s.current_booking_reference with
  | none => { s with error := some "No booking reference provided" }
  | some r =>
    if r = "" then { s with error := some "No booking reference provided" }
    else
      let result := tool_cancel_booking env.cancelApi r "Customer request"
      let s := { s with last_api_response := some result }
      if result.success then
        let message := booking_cancelled_msg r
        { s with
            messages := s.messages ++ [⟨Role.assistant, message⟩]
            current_booking_reference := none }
      else
        { s with error := some (result.error.getD "Failed to cancel booking") }

/-- Embedding of `RestaurantBookingAgent.handle_conversation_node`. -/
def handle_conversation_node (env : TurnEnv) (s : AgentState) : AgentState :=
  match env.convLlm with
  | .ok response => { s with messages := s.messages ++ [⟨Role.assistant, response⟩] }
  | .error e => { s with error := some e }

/-- The user-facing apology `respond_node` renders from a pending error. -/
def apology_message (err : String) : String :=
  "I apologize, but I encountered an issue: " ++ err
    ++ ". Please try again or let me know how I can help."

/-- The fixed fallback apology of `respond_node` when its own LLM call raises. -/
def respond_fallback_msg : String :=
  "I apologize, but I\x27m having trouble processing your request. Please try again."

/-- The second branch of `respond_node` (reached when the state carries no
truthy pending error): if the last message is missing or not
assistant-authored, generate a reply with the LLM, appending the fixed
fallback apology when that call raises; otherwise do nothing. -/
def respond_elif (llm : Except String String) (s : AgentState) : AgentState :=
  if s.messages.isEmpty || !lastIsAssistant s.messages then
    match llm with
    | .ok response => { s with messages := s.messages ++ [⟨Role.assistant, response⟩] }
    | .error _ => { s with messages := s.messages ++ [⟨Role.assistant, respond_fallback_msg⟩] }
  else s

/-- Embedding of `RestaurantBookingAgent.respond_node`.  The apology
branch is guarded by Python truthiness of the pending error string: an
empty error string is falsy, so control falls through to the second
branch with the (empty) error left in place. -/
def respond_node (llm : Except String String) (s : AgentState) : AgentState :=
  match s.error with
  | some err =>
    if err = "" then respond_elif llm s
    else
      { s with
          messages := s.messages ++ [⟨Role.assistant, apology_message err⟩]
          error := none }
  | none => respond_elif llm s

/-- Dispatch from the routing decision to the selected node (the
conditional edges of the graph); `"respond"` routes straight to
`respond_node`, which always runs afterwards. -/
def run_step (env : TurnEnv) (step : String) (s : AgentState) : AgentState :=
  if step = "check_availability" then check_availability_node env s
  else if step = "create_booking" then create_booking_node env s
  else if step = "get_booking" then get_booking_node env s
  else if step = "update_booking" then update_booking_node env s
  else if step = "cancel_booking" then cancel_booking_node env s
  else if step = "conversation" then handle_conversation_node env s
  else s

/-- One turn up to (but excluding) `respond_node`: `process_message`
appends the user message, then the graph runs
`process_input → route_intent → selected node`. -/
def turn_pre_respond (env : TurnEnv) (userMsg : String) (s0 : AgentState) : AgentState :=
  let s1 := { s0 with messages := s0.messages ++ [⟨Role.user, userMsg⟩] }
  let s2 := process_input env.extraction s1
  let r := route_intent s2
  run_step env r.1 r.2

/-- A full turn of `RestaurantBookingAgent.process_message` through the
compiled graph. -/
def runTurn (env : TurnEnv) (userMsg : String) (s0 : AgentState) : AgentState :=
  respond_node env.respondLlm (turn_pre_respond env userMsg s0)

/-! ## Statement vocabulary -/

/-- The two halves of the uniform envelope contract: a failure envelope
carries a non-empty message, and a success envelope carries no error. -/
def envelope_ok (e : Envelope) : Prop :=
  (e.success = false → e.message ≠ "") ∧ (e.success = true → e.error = none)

/-- Content of the last message of a state, empty when there is none. -/
def lastContent (s : AgentState) : String :=
  match s.messages.getLast? with
  | some m => m.content
  | none => ""

/-! ## Concrete scenario used to analyse `respond_node` (claims about the
terminal response step)

Turn 1: the extractor returns a complete `create_booking` intent and the
operation succeeds.  Turn 2: the extractor call raises, so the stale
intent and entities of turn 1 route the turn to `create_booking` again;
the operation succeeds and appends a confirmation, while the extraction
error is still pending when `respond_node` runs. -/

def c7env1 : TurnEnv :=
  { today := ⟨2024, 3, 14⟩
    fuzzyDate := .error ()
    fuzzyTime := .ok ⟨19, 0, 0⟩
    extraction := .ok "Intent: create_booking\nEntities:\n- date: tomorrow\n- time: 7pm\n- party_size: 4"
    availApi := .error "unreached"
    createApi := .ok { booking_reference := some "ABC1234", visit_date := some "2024-03-15",
                       visit_time := some "19:00:00", party_size := some 4 }
    getApi := .error "unreached"
    updateApi := .error "unreached"
    cancelApi := .error "unreached"
    convLlm := .ok "unreached"
    respondLlm := .ok "unreached" }

def c7env2 : TurnEnv :=
  { c7env1 with
      extraction := .error "Connection error"
      createApi := .ok { booking_reference := some "XYZ9999", visit_date := some "2024-03-15",
                         visit_time := some "19:00:00", party_size := some 4 } }

/-- State after turn 1. -/
def c7turn1 : AgentState :=
  runTurn c7env1 "book a table for 4 tomorrow at 7pm" (initialize_state "s")

/-- State handed to `respond_node` on turn 2. -/
def c7pre : AgentState := turn_pre_respond c7env2 "did that work?" c7turn1

/-! ## Concrete scenario used to analyse the failure-path reply (a turn
whose availability check raises a transport error) -/

def c8env : TurnEnv :=
  { today := ⟨2024, 3, 14⟩
    fuzzyDate := .error ()
    fuzzyTime := .error ()
    extraction := .ok "Intent: check_availability\n- date: tomorrow\n- party_size: 2"
    availApi := .error "ConnectError: connection refused"
    createApi := .error "unreached"
    getApi := .error "unreached"
    updateApi := .error "unreached"
    cancelApi := .error "unreached"
    convLlm := .ok "unreached"
    respondLlm := .ok "unreached" }

/-- State handed to `respond_node` after the failed availability turn. -/
def c8pre : AgentState :=
  turn_pre_respond c8env "any tables tomorrow for 2?" (initialize_state "t")

/-! ## Concrete witness states for the routing theorems -/

/-- A state whose turn extracted `create_booking` with exactly `date` and
`party_size`. -/
def c2state : AgentState :=
  { initialize_state "w" with
      intent := some "create_booking"
      entities := [("date", "tomorrow"), ("party_size", "4")] }

/-- A state whose turn extracted `check_availability` with `party_size`
missing. -/
def c3state : AgentState :=
  { initialize_state "w" with
      intent := some "check_availability"
      entities := [("date", "tomorrow")] }

/-- A baseline environment for concrete witness instantiations. -/
def wenv : TurnEnv :=
  { today := ⟨2024, 3, 14⟩
    fuzzyDate := .error ()
    fuzzyTime := .error ()
    extraction := .error "unused"
    availApi := .error "unused"
    createApi := .error "unused"
    getApi := .error "unused"
    updateApi := .error "unused"
    cancelApi := .ok ()
    convLlm := .error "unused"
    respondLlm := .error "unused" }

/-- Environment whose create call succeeds with a fresh reference. -/
def c1env : TurnEnv :=
  { wenv with createApi := .ok { booking_reference := some "NEW0001" } }

/-- A state holding only a `party_size` entity. -/
def c1state : AgentState :=
  { initialize_state "w" with entities := [("party_size", "4")] }

/-- A state with an explicit `booking_reference` entity that differs from
the stored session reference. -/
def c10state : AgentState :=
  { initialize_state "w" with
      entities := [("booking_reference", "AAA1111")]
      current_booking_reference := some "BBB2222" }

/-- A state with a pending error, used to instantiate the terminal-response
theorems. -/
def c7wstate : AgentState :=
  { initialize_state "w" with error := some "boom" }

/-! ## Helper lemmas -/

theorem charsStartWith_self_append (p rest : List Char) :
    charsStartWith p (p ++ rest) = true := by
  induction p with
  | nil => rfl
  | cons a as ih => simpa [charsStartWith] using ih

theorem charsHaveSub_of_starts (p l : List Char) (h : charsStartWith p l = true) :
    charsHaveSub p l = true := by
  cases l with
  | nil => simpa [charsHaveSub] using h
  | cons a rest => simp [charsHaveSub, h]

theorem charsHaveSub_append (pre p post : List Char) :
    charsHaveSub p (pre ++ (p ++ post)) = true := by
  induction pre with
  | nil =>
    simpa using charsHaveSub_of_starts p (p ++ post) (charsStartWith_self_append p post)
  | cons c cs ih => simp [charsHaveSub, ih]

theorem strContains_append (a e b : String) : strContains (a ++ e ++ b) e = true := by
  have h : (a ++ e ++ b).data = a.data ++ (e.data ++ b.data) := by
    simp [String.data_append]
  unfold strContains
  rw [h]
  exact charsHaveSub_append a.data e.data b.data

theorem str_append_ne_empty (a b : String) (ha : a ≠ "") : a ++ b ≠ "" := by
  intro h
  apply ha
  have hd : a.data ++ b.data = [] := by
    have := congrArg String.data h
    simpa [String.data_append] using this
  have hempty : a.data = [] := (List.append_eq_nil.mp hd).1
  cases a
  simp_all

/-! ## Claims -/

/-- C2: routing intent `create_booking` with non-empty `date` and
`party_size` but no usable `time` yields next step `conversation` and, as
its only side effect, merges the extracted entity mapping into the
session pending-booking scratch mapping; with `date`, `time` and
`party_size` all present it yields `create_booking` and leaves the state
unchanged. -/
theorem C2_route_create_booking (s : AgentState)
    (hi : s.intent = some "create_booking") :
    (entTruthy s "date" = true → entTruthy s "party_size" = true →
      entTruthy s "time" = false →
      route_intent s =
        ("conversation", { s with pending_booking := dictUpdate s.pending_booking s.entities }))
  ∧ (entTruthy s "date" = true → entTruthy s "time" = true →
      entTruthy s "party_size" = true →
      route_intent s = ("create_booking", s)) := by
  constructor
  · intro hd hp ht
    simp [route_intent, hi, hd, hp, ht]
  · intro hd ht hp
    simp [route_intent, hi, hd, hp, ht]

/-- C2 witness: a concrete entity mapping with exactly `date` and
`party_size` routes to `conversation` and merges into the scratch
mapping. -/
theorem C2_route_create_booking_witness :
    route_intent c2state =
      ("conversation",
        { c2state with pending_booking := [("date", "tomorrow"), ("party_size", "4")] }) := by
  have h := (C2_route_create_booking c2state rfl).1 (by decide) (by decide) (by decide)
  simpa using h

/-- C3: routing intent `check_availability` yields the operation only when
both `date` and `party_size` are present and non-empty; whenever either is
missing or empty it yields `conversation` instead. -/
theorem C3_route_check_availability (s : AgentState)
    (hi : s.intent = some "check_availability") :
    (¬(entTruthy s "date" = true ∧ entTruthy s "party_size" = true) →
      route_intent s = ("conversation", s))
  ∧ (entTruthy s "date" = true → entTruthy s "party_size" = true →
      route_intent s = ("check_availability", s)) := by
  constructor
  · intro hmiss
    cases hd : entTruthy s "date" <;> cases hp : entTruthy s "party_size"
    · simp [route_intent, hi, hd, hp]
    · simp [route_intent, hi, hd, hp]
    · simp [route_intent, hi, hd, hp]
    · exact absurd ⟨hd, hp⟩ hmiss
  · intro hd hp
    simp [route_intent, hi, hd, hp]

/-- C3 witness: with `party_size` missing the intent routes to
`conversation`; with both present it routes to the operation. -/
theorem C3_route_check_availability_witness :
    route_intent c3state = ("conversation", c3state) :=
  (C3_route_check_availability c3state rfl).1 (by decide)

/-- C4: the claim that `_parse_time` returns an `HH:MM:SS` string for
every input fails on the code: an input containing a colon that splits
into other than two or three parts (for example `"1:2:3:4"`) falls off the
end of the function body and Python returns `None` — no string at all, and
not the documented `"19:00:00"` default, contradicting the docstring
"Returns: Time in HH:MM:SS format".  The fuzzy-parser outcome is
irrelevant to this branch, so the result is `none` for every outcome. -/
theorem C4_parse_time_colon_fall_through :
    ∀ fz : Except Unit TimeOfDay, parseTime fz (some "1:2:3:4") = none :=
  fun _ => rfl

/-- C5: on the fixed reference date 2024-03-14 (a Thursday), the date
normalizer maps `"tomorrow"` to `"2024-03-15"`, `"next friday"` to
`"2024-03-15"`, and `"weekend"` to the upcoming Saturday `"2024-03-16"`,
independently of the fuzzy-parser outcome. -/
theorem C5_parse_date_fixed_examples :
    ∀ fz : Except Unit Date,
      parseDate fz ⟨2024, 3, 14⟩ (some "tomorrow") = "2024-03-15"
    ∧ parseDate fz ⟨2024, 3, 14⟩ (some "next friday") = "2024-03-15"
    ∧ parseDate fz ⟨2024, 3, 14⟩ (some "weekend") = "2024-03-16" :=
  fun _ => ⟨rfl, rfl, rfl⟩

/-- C6: every envelope returned by the five Booking Operation Facade
methods, whatever the outcome of the underlying call, carries a non-empty
`message` whenever `success` is false, and never pairs `success = true`
with a populated `error` field. -/
theorem C6_envelope_contract
    (fzD : Except Unit Date) (fzT : Except Unit TimeOfDay) (today : Date)
    (aOut : Except String AvailApi) (cOut : Except String ApiBooking)
    (gOut : Except String (Option ApiBooking)) (uOut : Except String UpdateApi)
    (xOut : Except String Unit)
    (ds ts psS sr : Option String) (ps : Int)
    (ci : Option (List (String × String))) (ref reason : String) :
    envelope_ok (tool_check_availability fzD today aOut ds ps)
  ∧ envelope_ok (tool_create_booking fzD fzT today cOut ds ts ps ci sr)
  ∧ envelope_ok (tool_get_booking gOut ref)
  ∧ envelope_ok (tool_update_booking fzD fzT today uOut ref ds ts psS sr)
  ∧ envelope_ok (tool_cancel_booking xOut ref reason) := by
  refine ⟨?_, ?_, ?_, ?_, ?_⟩
  · cases aOut with
    | ok r =>
      exact ⟨fun h => by simp [tool_check_availability] at h,
             fun _ => by simp [tool_check_availability]⟩
    | error e =>
      exact ⟨fun _ => by simp [tool_check_availability],
             fun h => by simp [tool_check_availability] at h⟩
  · cases cOut with
    | ok r =>
      exact ⟨fun h => by simp [tool_create_booking] at h,
             fun _ => by simp [tool_create_booking]⟩
    | error e =>
      exact ⟨fun _ => by simp [tool_create_booking],
             fun h => by simp [tool_create_booking] at h⟩
  · cases gOut with
    | ok r =>
      cases r with
      | some b =>
        exact ⟨fun h => by simp [tool_get_booking] at h,
               fun _ => by simp [tool_get_booking]⟩
      | none =>
        exact ⟨fun _ => str_append_ne_empty _ _ (by decide),
               fun h => by simp [tool_get_booking] at h⟩
    | error e =>
      exact ⟨fun _ => by simp [tool_get_booking],
             fun h => by simp [tool_get_booking] at h⟩
  · cases uOut with
    | ok r =>
      exact ⟨fun h => by simp [tool_update_booking] at h,
             fun _ => by simp [tool_update_booking]⟩
    | error e =>
      exact ⟨fun _ => by simp [tool_update_booking],
             fun h => by simp [tool_update_booking] at h⟩
  · cases xOut with
    | ok r =>
      exact ⟨fun h => by simp [tool_cancel_booking] at h,
             fun _ => by simp [tool_cancel_booking]⟩
    | error e =>
      exact ⟨fun _ => by simp [tool_cancel_booking],
             fun h => by simp [tool_cancel_booking] at h⟩

/-- C6 witness: a failing read carries a non-empty message, and a
successful cancel carries no error. -/
theorem C6_envelope_contract_witness :
    (tool_get_booking (Except.error "boom") "REF").message ≠ ""
  ∧ (tool_cancel_booking (Except.ok ()) "REF" "Customer request").error = none := by
  have h := C6_envelope_contract (Except.error ()) (Except.error ()) ⟨2024, 3, 14⟩
    (Except.ok {}) (Except.ok {}) (Except.error "boom") (Except.ok {}) (Except.ok ())
    none none none none 2 none "REF" "Customer request"
  exact ⟨h.2.2.1.1 rfl, (h.2.2.2.2).2 rfl⟩

/-- C9 (implicit): `_parse_date` is total — for every input and every
fuzzy-parser outcome it returns the `%Y-%m-%d` rendering of some date and
never propagates an exception; in particular, when the past-date
year-advance correction builds an invalid calendar date (February 29
advanced to the non-leap year 2025), the raised `ValueError` is caught and
the result is the default, tomorrow. -/
theorem C9_parse_date_total :
    (∀ (fz : Except Unit Date) (today : Date) (ds : Option String),
       ∃ d : Date, parseDate fz today ds = dateToStr d)
  ∧ parseDate (.ok ⟨2024, 2, 29⟩) ⟨2024, 3, 14⟩ (some "february 29")
      = dateToStr (addDays ⟨2024, 3, 14⟩ 1)
  ∧ parseDate (.ok ⟨2024, 2, 29⟩) ⟨2024, 3, 14⟩ (some "february 29") = "2024-03-15" := by
  refine ⟨?_, rfl, rfl⟩
  intro fz today ds
  cases ds with
  | none => exact ⟨addDays today 1, rfl⟩
  | some s =>
    cases hrel : parseDateRel today (strLower s) with
    | some d => exact ⟨d, by simp [parseDate, hrel]⟩
    | none =>
      cases fz with
      | error u => exact ⟨addDays today 1, by simp [parseDate, hrel]⟩
      | ok pd =>
        by_cases hlt : pd.year < today.year ∨ (pd.year = today.year ∧
            (pd.month < today.month ∨ (pd.month = today.month ∧ pd.day < today.day)))
        · by_cases hmd : pd.month < today.month ∨ (pd.month = today.month ∧ pd.day < today.day)
          · cases hrep : replaceYear pd (today.year + 1) with
            | ok pd2 =>
              exact ⟨pd2, by simp only [parseDate, hrel]; rw [if_pos hlt, if_pos hmd, hrep]⟩
            | error u =>
              exact ⟨addDays today 1,
                by simp only [parseDate, hrel]; rw [if_pos hlt, if_pos hmd, hrep]⟩
          · exact ⟨pd, by simp only [parseDate, hrel]; rw [if_pos hlt, if_neg hmd]⟩
        · exact ⟨pd, by simp only [parseDate, hrel]; rw [if_neg hlt]⟩

/-- C10 (implicit): whenever `cancel_booking_node` succeeds, the stored
session reference is cleared to `None` — even when the cancelled
reference was supplied explicitly in the entities of the turn; the
envelope recorded on the state shows the explicit reference is the one
that was cancelled. -/
theorem C10_cancel_clears_reference (env : TurnEnv) (s : AgentState) (r : String)
    (he : dictGet s.entities "booking_reference" = some r) (hr : r ≠ "")
    (hok : env.cancelApi = Except.ok ()) :
    (cancel_booking_node env s).current_booking_reference = none
  ∧ (cancel_booking_node env s).last_api_response =
      some (tool_cancel_booking env.cancelApi r "Customer request") := by
  have hc : chosen_booking_ref s.entities s.current_booking_reference = some r := by
    simp [chosen_booking_ref, pyOr, optTruthy, he, hr]
  constructor <;> simp [cancel_booking_node, hc, hr, hok, tool_cancel_booking]

/-- C10 witness: cancelling explicit reference AAA1111 while the session
stores BBB2222 still clears the stored reference. -/
theorem C10_cancel_clears_reference_witness :
    (cancel_booking_node wenv c10state).current_booking_reference = none :=
  (C10_cancel_clears_reference wenv c10state "AAA1111" rfl (by decide) rfl).1

/-- C1: the lifecycle of the stored session booking reference.
(a) A create turn whose operation succeeds stores the returned reference.
(b) When the entities of a turn omit `booking_reference`, the identifier used by
get/update/cancel is the stored reference (the fallback), observable in
the envelope recorded on the state.  (c) A successful cancel clears the
stored reference.  (d) No other step of the turn pipeline — input
processing, routing, availability check, get, update, open conversation,
the terminal responder, a failed create or a failed cancel — changes it. -/
theorem C1_reference_lifecycle :
    (∀ (env : TurnEnv) (s : AgentState) (n : Int) (b : ApiBooking),
       pyToInt (dictGet s.entities "party_size") = Except.ok n →
       env.createApi = Except.ok b →
       (create_booking_node env s).current_booking_reference = b.booking_reference)
  ∧ (∀ (ents : EntMap) (cur : Option String),
       dictGet ents "booking_reference" = none → chosen_booking_ref ents cur = cur)
  ∧ (∀ (env : TurnEnv) (s : AgentState) (r : String),
       dictGet s.entities "booking_reference" = none →
       s.current_booking_reference = some r → r ≠ "" →
       (get_booking_node env s).last_api_response = some (tool_get_booking env.getApi r)
     ∧ (update_booking_node env s).last_api_response =
         some (tool_update_booking env.fuzzyDate env.fuzzyTime env.today env.updateApi r
           (dictGet s.entities "date") (dictGet s.entities "time")
           (dictGet s.entities "party_size") (dictGet s.entities "special_requests"))
     ∧ (cancel_booking_node env s).last_api_response =
         some (tool_cancel_booking env.cancelApi r "Customer request"))
  ∧ (∀ (env : TurnEnv) (s : AgentState) (r : String),
       chosen_booking_ref s.entities s.current_booking_reference = some r → r ≠ "" →
       env.cancelApi = Except.ok () →
       (cancel_booking_node env s).current_booking_reference = none)
  ∧ (∀ (ext : Except String String) (s : AgentState),
       (process_input ext s).current_booking_reference = s.current_booking_reference)
  ∧ (∀ s : AgentState,
       (route_intent s).2.current_booking_reference = s.current_booking_reference)
  ∧ (∀ (env : TurnEnv) (s : AgentState),
       (check_availability_node env s).current_booking_reference = s.current_booking_reference
     ∧ (get_booking_node env s).current_booking_reference = s.current_booking_reference
     ∧ (update_booking_node env s).current_booking_reference = s.current_booking_reference
     ∧ (handle_conversation_node env s).current_booking_reference = s.current_booking_reference)
  ∧ (∀ (llm : Except String String) (s : AgentState),
       (respond_node llm s).current_booking_reference = s.current_booking_reference)
  ∧ (∀ (env : TurnEnv) (s : AgentState) (e : String),
       pyToInt (dictGet s.entities "party_size") = Except.error e →
       (create_booking_node env s).current_booking_reference = s.current_booking_reference)
  ∧ (∀ (env : TurnEnv) (s : AgentState) (n : Int) (e : String),
       pyToInt (dictGet s.entities "party_size") = Except.ok n →
       env.createApi = Except.error e →
       (create_booking_node env s).current_booking_reference = s.current_booking_reference)
  ∧ (∀ (env : TurnEnv) (s : AgentState) (e : String),
       env.cancelApi = Except.error e →
       (cancel_booking_node env s).current_booking_reference = s.current_booking_reference) := by
  refine ⟨?_, ?_, ?_, ?_, ?_, ?_, ?_, ?_, ?_, ?_, ?_⟩
  · intro env s n b h1 h2
    simp [create_booking_node, h1, h2, tool_create_booking]
  · intro ents cur h
    simp [chosen_booking_ref, pyOr, optTruthy, h]
  · intro env s r he hc hr
    have hch : chosen_booking_ref s.entities s.current_booking_reference = some r := by
      simp [chosen_booking_ref, pyOr, optTruthy, he, hc]
    refine ⟨?_, ?_, ?_⟩
    · simp only [get_booking_node, hch]
      rw [if_neg hr]
      split <;> rfl
    · simp only [update_booking_node, hch]
      rw [if_neg hr]
      split <;> rfl
    · simp only [cancel_booking_node, hch]
      rw [if_neg hr]
      split <;> rfl
  · intro env s r hch hr hok
    simp only [cancel_booking_node, hch]
    rw [if_neg hr]
    simp [tool_cancel_booking, hok]
  · intro ext s
    unfold process_input
    split
    · rfl
    · split
      · split <;> rfl
      · rfl
  · intro s
    unfold route_intent
    split
    · rfl
    · (repeat' split) <;> rfl
  · intro env s
    refine ⟨?_, ?_, ?_, ?_⟩
    · simp only [check_availability_node]
      (repeat' split) <;> rfl
    · simp only [get_booking_node]
      (repeat' split) <;> rfl
    · simp only [update_booking_node]
      (repeat' split) <;> rfl
    · simp only [handle_conversation_node]
      split <;> rfl
  · intro llm s
    simp only [respond_node, respond_elif]
    (repeat' split) <;> rfl
  · intro env s e h
    simp [create_booking_node, h]
  · intro env s n e h1 h2
    simp [create_booking_node, h1, h2, tool_create_booking]
  · intro env s e h
    unfold cancel_booking_node
    split
    · rfl
    · split
      · rfl
      · simp [tool_cancel_booking, h]

/-- C1 witness: a concrete successful create stores the returned
reference. -/
theorem C1_reference_lifecycle_witness :
    (create_booking_node c1env c1state).current_booking_reference = some "NEW0001" :=
  C1_reference_lifecycle.1 c1env c1state 4 { booking_reference := some "NEW0001" }
    rfl rfl

/-- C7 counterexample: the claim that the terminal response step appends
nothing whenever an earlier operation node already appended a message this
turn fails on a reachable state.  Turn 1 creates a booking.  On turn 2 the
extraction call raises, leaving the stale `create_booking` intent and
complete entities of turn 1 in the state, so the turn is routed to the
create operation, which succeeds and appends a confirmation; the pending
extraction error then makes `respond_node` append the apology as well —
one more message despite the operation node having already appended one. -/
theorem C7_respond_counterexample :
    lastIsAssistant c7pre.messages = true
  ∧ c7pre.messages.length = c7turn1.messages.length + 2
  ∧ c7pre.error = some "Connection error"
  ∧ (respond_node c7env2.respondLlm c7pre).messages.length = c7pre.messages.length + 1 := by
  refine ⟨rfl, rfl, rfl, rfl⟩

/-- C7 (amended): `respond_node` appends exactly one assistant-authored
message when the received state carries a truthy (non-empty) pending
error string (the apology, clearing the error — even if an operation node
already appended a message this turn) or when no truthy error is pending
and the last message is not assistant-authored; it is a no-op exactly
when no truthy error is pending and the last message is already
assistant-authored. -/
theorem C7_respond_append_behavior (llm : Except String String) (s : AgentState) :
    (∀ e, s.error = some e → e ≠ "" →
       respond_node llm s =
         { s with
             messages := s.messages ++ [⟨Role.assistant, apology_message e⟩]
             error := none })
  ∧ (optTruthy s.error = false → lastIsAssistant s.messages = true → respond_node llm s = s)
  ∧ (optTruthy s.error = false → lastIsAssistant s.messages = false →
       ∃ c, respond_node llm s =
         { s with messages := s.messages ++ [⟨Role.assistant, c⟩] }) := by
  refine ⟨?_, ?_, ?_⟩
  · intro e he hne
    simp [respond_node, he, hne]
  · intro hf hl
    have hne : s.messages.isEmpty = false := by
      cases hm : s.messages with
      | nil => rw [hm] at hl; simp [lastIsAssistant] at hl
      | cons a l => rfl
    cases he : s.error with
    | none => simp [respond_node, respond_elif, he, hl, hne]
    | some e =>
      have hee : e = "" := by
        rw [he] at hf
        simpa [optTruthy] using hf
      simp [respond_node, respond_elif, he, hee, hl, hne]
  · intro hf hl
    have hgen : ∃ c, respond_elif llm s =
        { s with messages := s.messages ++ [⟨Role.assistant, c⟩] } := by
      cases llm with
      | ok r => exact ⟨r, by simp [respond_elif, hl]⟩
      | error e2 => exact ⟨respond_fallback_msg, by simp [respond_elif, hl]⟩
    cases he : s.error with
    | none => simpa [respond_node, he] using hgen
    | some e =>
      have hee : e = "" := by
        rw [he] at hf
        simpa [optTruthy] using hf
      simpa [respond_node, he, hee] using hgen

/-- C7 witness: on a concrete state with a pending error the terminal
step appends exactly the apology and clears the error. -/
theorem C7_respond_append_behavior_witness :
    respond_node (Except.ok "x") c7wstate =
      { c7wstate with
          messages := [⟨Role.assistant, apology_message "boom"⟩]
          error := none } := by
  have h := (C7_respond_append_behavior (Except.ok "x") c7wstate).1 "boom" rfl (by decide)
  simpa using h

/-- C8 counterexample: the claim that failure turns never render raw
technical detail fails on a reachable turn.  The availability check raises
a transport error; the node records the raw `str(e)` text on the state,
and the terminal response interpolates that raw text into the message
shown to the user. -/
theorem C8_raw_error_reaches_user :
    c8pre.error = some "ConnectError: connection refused"
  ∧ lastContent (respond_node c8env.respondLlm c8pre)
      = apology_message "ConnectError: connection refused"
  ∧ strContains (lastContent (respond_node c8env.respondLlm c8pre))
      "ConnectError: connection refused" = true := by
  refine ⟨rfl, rfl, ?_⟩
  exact strContains_append "I apologize, but I encountered an issue: "
    "ConnectError: connection refused" ". Please try again or let me know how I can help."

/-- C8 (amended): every turn that ends with a failure recorded as a
truthy (non-empty) error string renders the fixed polite apology
template, but the template embeds the raw error string recorded on the
state, so the raw technical detail does reach the user. -/
theorem C8_failure_reply_embeds_error (llm : Except String String) (s : AgentState)
    (e : String) (he : s.error = some e) (hne : e ≠ "") :
    (respond_node llm s).messages = s.messages ++ [⟨Role.assistant, apology_message e⟩]
  ∧ strContains (apology_message e) e = true := by
  constructor
  · simp [respond_node, he, hne]
  · exact strContains_append "I apologize, but I encountered an issue: " e
      ". Please try again or let me know how I can help."

/-- C8 witness: a concrete pending error is embedded verbatim in the
rendered apology. -/
theorem C8_failure_reply_embeds_error_witness :
    (respond_node (Except.ok "x") { initialize_state "v" with error := some "oops" }).messages
      = [⟨Role.assistant, apology_message "oops"⟩]
  ∧ strContains (apology_message "oops") "oops" = true := by
  have h := C8_failure_reply_embeds_error (Except.ok "x")
    { initialize_state "v" with error := some "oops" } "oops" rfl (by decide)
  exact ⟨by simpa using h.1, h.2⟩

end BookingAgent
